import Mathlib

/-!
Shallow embedding of the handbook passage-retrieval and FAQ-routing engine
of the iDiscipline backend (source file `src/unnamed/part_000`).

Strings are modelled as Lean `String` / `List Char`; the JavaScript `\s`
character class and `String.prototype.trim` are modelled with
`Char.isWhitespace`; `toLowerCase` is modelled with `Char.toLower`
(ASCII case folding, which is what all the patterns and documents use);
a JavaScript regular expression `.test` is modelled by the small `Pat`
matcher below, restricted to the constructs the source actually uses
(literals, alternation, juxtaposition, `\s*`, `\s+`, `.*`).
-/

namespace IDiscipline

/-- Model of the JavaScript whitespace class `\s` (and of `trim`). -/
def isWs (c : Char) : Bool := c.isWhitespace

/-- Model of `String.prototype.toLowerCase` on a character list. -/
def jsLowerL (l : List Char) : List Char := l.map Char.toLower

/-- Model of `String.prototype.trim` on a character list. -/
def jsTrimL (l : List Char) : List Char :=
  ((l.dropWhile isWs).reverse.dropWhile isWs).reverse

/-- Model of `String.prototype.trim`. -/
def jsTrim (s : String) : String := ⟨jsTrimL s.toList⟩

/-- Substring containment test, model of `String.prototype.includes`
(`hasSub pat l` holds when `pat` occurs contiguously inside `l`). -/
def hasSub (pat : List Char) : List Char → Bool
  | [] => pat.isEmpty
  | c :: rest => pat.isPrefixOf (c :: rest) || hasSub pat rest

/-! ### Paragraph splitting

The source splits the handbook on `/\n\s*\n+/`.  A match of that regex
starts at a newline and, because both `\s*` and `\n+` are greedy and a
newline is itself in `\s`, extends exactly to the last newline of the
maximal whitespace run that begins there, provided that run contains at
least two newlines. -/

/-- Index of the last newline inside the leading whitespace run of the list
(`none` when the leading run contains no newline). -/
def lastNlIdx : List Char → Option Nat
  | [] => none
  | c :: rest =>
    if isWs c then
      match lastNlIdx rest with
      | some j => some (j + 1)
      | none => if c = '\n' then some 0 else none
    else none

/-- Length of the separator match of `/\n\s*\n+/` anchored at the head of the
list, `0` when the regex does not match there. -/
def sepLen : List Char → Nat
  | [] => 0
  | c :: rest =>
    if c = '\n' then
      match lastNlIdx rest with
      | some j => j + 2
      | none => 0
    else 0

/-- Fuelled worker for `splitParas`: the fuel is an upper bound on the
input length (a separator match always consumes at least one character),
so with fuel `l.length` the zero-fuel branch is never reached. -/
def splitParasFuel : Nat → List Char → List (List Char)
  | _, [] => [[]]
  | 0, l => [l]
  | fuel + 1, c :: rest =>
    if 0 < sepLen (c :: rest) then
      [] :: splitParasFuel fuel ((c :: rest).drop (sepLen (c :: rest)))
    else
      match splitParasFuel fuel rest with
      | [] => [[c]]
      | seg :: segs => (c :: seg) :: segs

/-- Model of `fullText.split(/\n\s*\n+/)` on a character list. -/
def splitParas (l : List Char) : List (List Char) :=
  splitParasFuel l.length l

/-- Model of `fullText.split(/\n\s*\n+/)`. -/
def splitParagraphs (s : String) : List String :=
  (splitParas s.toList).map (fun l => (⟨l⟩ : String))

/-! ### The `normalize` helper of `extractTopHandbookPassages` -/

/-- Model of the character replacement `replace(/[^a-z0-9\s]/g, ' ')`. -/
def toAlnumSpace (c : Char) : Char :=
  if (97 ≤ c.toNat ∧ c.toNat ≤ 122) ∨ (48 ≤ c.toNat ∧ c.toNat ≤ 57) ∨ isWs c then c else ' '

/-- Worker for `collapseWs`: `prevWs` records whether the previous
character was whitespace, so each maximal whitespace run contributes a
single space. -/
def collapseWsAux (prevWs : Bool) : List Char → List Char
  | [] => []
  | c :: rest =>
    if isWs c then
      if prevWs then collapseWsAux true rest
      else ' ' :: collapseWsAux true rest
    else c :: collapseWsAux false rest

/-- Model of `replace(/\s+/g, ' ')`: collapse every whitespace run to a
single space. -/
def collapseWs (l : List Char) : List Char := collapseWsAux false l

/-- The `normalize` helper of `extractTopHandbookPassages`: lower-case,
replace every character outside `[a-z0-9\s]` with a space, collapse
whitespace runs, trim. -/
def normalizeJS (s : String) : List Char :=
  jsTrimL (collapseWs ((s.toList.map Char.toLower).map toAlnumSpace))

/-- Model of `String.prototype.split(' ')` on a character list. -/
def splitOnSpace : List Char → List (List Char)
  | [] => [[]]
  | c :: rest =>
    if c = ' ' then [] :: splitOnSpace rest
    else
      match splitOnSpace rest with
      | [] => [[c]]
      | seg :: segs => (c :: seg) :: segs

/-- The stopword set of `extractTopHandbookPassages`. -/
def stopwords : List String :=
  ["the", "a", "an", "and", "or", "but", "if", "then", "else", "for", "to", "of",
   "in", "on", "at", "by", "with", "from", "as", "is", "are", "was", "were", "be",
   "being", "been", "this", "that", "these", "those", "it", "its", "do", "does",
   "did", "can", "could", "should", "would", "may", "might", "will", "shall",
   "your", "you", "we", "our", "they", "their"]

/-- Question tokenization of `extractTopHandbookPassages`:
`qNorm.split(' ').filter(t => t && !stopwords.has(t))`. -/
def questionTokens (q : String) : List String :=
  ((splitOnSpace (normalizeJS q)).map (fun l => (⟨l⟩ : String))).filter
    (fun t => decide (t ≠ "" ∧ t ∉ stopwords))

/-- Passage tokenization of `extractTopHandbookPassages`:
`pNorm.split(' ').filter(Boolean)` (no stopword removal). -/
def passageTokens (p : String) : List String :=
  ((splitOnSpace (normalizeJS p)).map (fun l => (⟨l⟩ : String))).filter
    (fun t => decide (t ≠ ""))

/-- Question bigrams: `qTokens[i] + ' ' + qTokens[i+1]` for consecutive
pairs of the stopword-filtered token sequence. -/
def bigramsOf (ts : List String) : List String :=
  (ts.zip ts.tail).map (fun pr => pr.1 ++ " " ++ pr.2)

/-- The `unigramScore` of a passage-token list: each occurrence of a token
of the question token set counts once. -/
def unigramScoreOf (qSet pT : List String) : Nat :=
  pT.countP (fun t => decide (t ∈ qSet))

/-- The `bigramScore` of a passage-token list: `+2` per adjacent passage
token pair that is a question bigram. -/
def bigramScoreOf (qB pT : List String) : Nat :=
  2 * (pT.zip pT.tail).countP (fun pr => decide (pr.1 ++ " " ++ pr.2 ∈ qB))

/-- The `distinctOverlap` bonus: number of distinct passage tokens present
in the question token set (`new Set(pTokens.filter(...)).size`). -/
def distinctOverlapOf (qSet pT : List String) : Nat :=
  ((pT.filter (fun t => decide (t ∈ qSet))).dedup).length

/-- The per-paragraph score of `extractTopHandbookPassages`:
`unigramScore + bigramScore + distinctOverlap`. -/
def scoreOf (q p : String) : Nat :=
  let qT := questionTokens q
  let qB := bigramsOf qT
  let pT := passageTokens p
  unigramScoreOf qT pT + bigramScoreOf qB pT + distinctOverlapOf qT pT

/-- A scored paragraph, the `{ idx, score, text }` record of the source. -/
structure ScoredP where
  idx : Nat
  score : Nat
  text : String

/-- Model of `paragraphs.map((p, idx) => ({ idx, score, text: p }))`,
parameterized by the scoring function so that both rankers can reuse it. -/
def scoreParasWith (f : String → Nat) : Nat → List String → List ScoredP
  | _, [] => []
  | i, p :: ps => ⟨i, f p, p⟩ :: scoreParasWith f (i + 1) ps

/-- Stable insertion into a list sorted by score descending: an element is
placed before the first strictly smaller score, after equal scores —
exactly the order produced by the (stable) JavaScript
`sort((a, b) => b.score - a.score)` when elements arrive in document
order. -/
def insertDesc (x : ScoredP) : List ScoredP → List ScoredP
  | [] => [x]
  | y :: ys => if y.score ≤ x.score then x :: y :: ys else y :: insertDesc x ys

/-- Stable sort by score descending, model of
`scored.sort((a, b) => b.score - a.score)`. -/
def sortDesc : List ScoredP → List ScoredP
  | [] => []
  | x :: xs => insertDesc x (sortDesc xs)

/-- The scored, sorted, truncated, positivity-filtered candidate list of
`extractTopHandbookPassages` (everything up to the final `.map(s => s.text)`). -/
def extractScoredTop (question fullText : String) (maxPassages minLen : Nat) :
    List ScoredP :=
  let paragraphs :=
    ((splitParagraphs fullText).map jsTrim).filter (fun p => decide (minLen ≤ p.length))
  let scored := scoreParasWith (scoreOf question) 0 paragraphs
  ((sortDesc scored).take maxPassages).filter (fun s => decide (0 < s.score))

/-- Model of `extractTopHandbookPassages(question, fullText, options)`
with `options = { maxPassages = 3, minLen = 40 }`. -/
def extractTopHandbookPassages (question fullText : String)
    (maxPassages : Nat := 3) (minLen : Nat := 40) : List String :=
  if question = "" ∨ fullText = "" then []
  else (extractScoredTop question fullText maxPassages minLen).map (fun s => s.text)

/-! ### The focused ranker `extractTopHandbookPassagesFocused` -/

/-- Alphanumeric test used by `split(/[^a-z0-9]+/)`. -/
def isAlnum (c : Char) : Bool :=
  (97 ≤ c.toNat && c.toNat ≤ 122) || (48 ≤ c.toNat && c.toNat ≤ 57)

/-- Worker for `alnumRuns`: `cur` holds the current alphanumeric run in
reverse. -/
def alnumRunsAux (cur : List Char) : List Char → List (List Char)
  | [] => if cur.isEmpty then [] else [cur.reverse]
  | c :: rest =>
    if isAlnum c then alnumRunsAux (c :: cur) rest
    else if cur.isEmpty then alnumRunsAux [] rest
    else cur.reverse :: alnumRunsAux [] rest

/-- Model of `split(/[^a-z0-9]+/).filter(Boolean)`: the maximal
alphanumeric runs of the list. -/
def alnumRuns (l : List Char) : List (List Char) := alnumRunsAux [] l

/-- The question tokens of the focused ranker:
`String(question).toLowerCase().split(/[^a-z0-9]+/).filter(Boolean)`. -/
def focusedQTokens (question : String) : List String :=
  (alnumRuns (jsLowerL question.toList)).map (fun l => (⟨l⟩ : String))

/-- The per-paragraph score of `extractTopHandbookPassagesFocused`:
`+2` per question token contained in the lower-cased paragraph as a raw
substring, `+1` per focus keyword contained in it. -/
def focusedScoreOf (question : String) (lowerFocus : List String) (p : String) : Nat :=
  let lp := jsLowerL p.toList
  2 * (focusedQTokens question).countP (fun t => hasSub t.toList lp) +
    lowerFocus.countP (fun fk => hasSub fk.toList lp)

/-- The trimmed non-empty paragraphs of the focused ranker
(`fullText.split(/\n\s*\n+/).map(p => p.trim()).filter(Boolean)`). -/
def focusedParas (fullText : String) : List String :=
  ((splitParagraphs fullText).map jsTrim).filter (fun p => decide (p ≠ ""))

/-- The focus-keyword filter of the focused ranker: paragraphs containing
at least one lower-cased focus keyword as a substring. -/
def focusedFiltered (fullText : String) (lowerFocus : List String) : List String :=
  (focusedParas fullText).filter
    (fun p => lowerFocus.any (fun k => hasSub k.toList (jsLowerL p.toList)))

/-- The candidate pool of the focused ranker: trimmed non-empty paragraphs,
filtered to those containing a focus keyword when that filter is non-trivial
and non-empty (otherwise fall back to the unfiltered list). -/
def focusedPool (fullText : String) (lowerFocus : List String) : List String :=
  if lowerFocus.isEmpty then focusedParas fullText
  else if (focusedFiltered fullText lowerFocus).isEmpty then focusedParas fullText
  else focusedFiltered fullText lowerFocus

/-- The scored, sorted, truncated, positivity-filtered candidate list of the
focused ranker (everything up to the final `.map(s => s.p)`). -/
def focusedScoredTop (question fullText : String) (focusKeywords : List String)
    (maxPassages : Nat) : List ScoredP :=
  let lowerFocus := focusKeywords.map (fun k => (⟨jsLowerL k.toList⟩ : String))
  let pool := focusedPool fullText lowerFocus
  let scored := scoreParasWith (focusedScoreOf question lowerFocus) 0 pool
  ((sortDesc scored).take maxPassages).filter (fun s => decide (0 < s.score))

/-- Model of `extractTopHandbookPassagesFocused(question, fullText,
focusKeywords, options)`.  The bound is `options.maxPassages || 3`, so a
`0` (falsy) argument is replaced by `3`. -/
def extractTopHandbookPassagesFocused (question fullText : String)
    (focusKeywords : List String) (maxPassages0 : Nat := 0) : List String :=
  if fullText = "" then []
  else
    (focusedScoredTop question fullText focusKeywords
      (if maxPassages0 = 0 then 3 else maxPassages0)).map (fun s => s.text)

/-! ### A matcher for the regular expressions of the source

Only the constructs actually used by the classifier and the FAQ table are
supported: literals, alternation, juxtaposition, `\s*`, `\s+` and `.*`
(the `i` flag is modelled by lower-casing the subject first; all pattern
literals are already lower case). -/

/-- Abstract syntax of the regular expressions used in the source. -/
inductive Pat where
  | lit (s : List Char) : Pat
  | wsStar : Pat
  | wsPlus : Pat
  | dotStar : Pat
  | seq (p q : Pat) : Pat
  | alt (p q : Pat) : Pat

/-- Remainders after `\s*` consumes zero or more whitespace characters. -/
def wsRems : List Char → List (List Char)
  | [] => [[]]
  | c :: rest => (c :: rest) :: (if isWs c then wsRems rest else [])

/-- The character class of an unflagged JavaScript `.` (anything except a
line terminator). -/
def isDotChar (c : Char) : Bool :=
  !(c == '\n' || c == '\r' || c == Char.ofNat 0x2028 || c == Char.ofNat 0x2029)

/-- Remainders after `.*` consumes zero or more non-terminator characters. -/
def dotRems : List Char → List (List Char)
  | [] => [[]]
  | c :: rest => (c :: rest) :: (if isDotChar c then dotRems rest else [])

/-- List concatenation of the images of a function, used to sequence
pattern matches. -/
def concatMapRems (f : List Char → List (List Char)) :
    List (List Char) → List (List Char)
  | [] => []
  | r :: rs => f r ++ concatMapRems f rs

/-- All remainders left after the pattern consumes a prefix of the list. -/
def patRems : Pat → List Char → List (List Char)
  | .lit s, l => if s.isPrefixOf l then [l.drop s.length] else []
  | .wsStar, l => wsRems l
  | .wsPlus, l =>
    match l with
    | [] => []
    | c :: rest => if isWs c then wsRems rest else []
  | .dotStar, l => dotRems l
  | .seq p q, l => concatMapRems (patRems q) (patRems p l)
  | .alt p q, l => patRems p l ++ patRems q l

/-- Model of `RegExp.prototype.test`: the pattern matches starting at some
position of the list. -/
def patSearch (p : Pat) : List Char → Bool
  | [] => !(patRems p []).isEmpty
  | c :: rest => !(patRems p (c :: rest)).isEmpty || patSearch p rest

/-! ### The category classifier `deriveQuestionCategory` -/

/-- The regex `/dress|uniform|groom|hair|attire/`. -/
def reDress : Pat :=
  .alt (.lit "dress".toList) (.alt (.lit "uniform".toList)
    (.alt (.lit "groom".toList) (.alt (.lit "hair".toList) (.lit "attire".toList))))

/-- The regex `/attend|absen|tardy|late/`. -/
def reAttendance : Pat :=
  .alt (.lit "attend".toList) (.alt (.lit "absen".toList)
    (.alt (.lit "tardy".toList) (.lit "late".toList)))

/-- The regex `/appeal|challenge|dispute|contest/`. -/
def reAppeals : Pat :=
  .alt (.lit "appeal".toList) (.alt (.lit "challenge".toList)
    (.alt (.lit "dispute".toList) (.lit "contest".toList)))

/-- The regex `/bully/`. -/
def reBullying : Pat := .lit "bully".toList

/-- The regex `/suspend/`. -/
def reSuspension : Pat := .lit "suspend".toList

/-- The regex `/expel|expulsion|dismiss/`. -/
def reExpulsion : Pat :=
  .alt (.lit "expel".toList) (.alt (.lit "expulsion".toList) (.lit "dismiss".toList))

/-- The regex `/category\s*c/`. -/
def reCategoryC : Pat :=
  .seq (.lit "category".toList) (.seq .wsStar (.lit "c".toList))

/-- The regex `/category\s*b|cheat|plagiar|gambl|alcohol|vandal/`. -/
def reCategoryB : Pat :=
  .alt (.seq (.lit "category".toList) (.seq .wsStar (.lit "b".toList)))
    (.alt (.lit "cheat".toList) (.alt (.lit "plagiar".toList)
      (.alt (.lit "gambl".toList) (.alt (.lit "alcohol".toList) (.lit "vandal".toList)))))

/-- The regex `/category\s*a|disrespect|fight|pda|cutting|record/`. -/
def reCategoryA : Pat :=
  .alt (.seq (.lit "category".toList) (.seq .wsStar (.lit "a".toList)))
    (.alt (.lit "disrespect".toList) (.alt (.lit "fight".toList)
      (.alt (.lit "pda".toList) (.alt (.lit "cutting".toList) (.lit "record".toList)))))

/-- The regex `/minor|id\s*violation|tardi|loiter|litter/`. -/
def reMinor : Pat :=
  .alt (.lit "minor".toList)
    (.alt (.seq (.lit "id".toList) (.seq .wsStar (.lit "violation".toList)))
      (.alt (.lit "tardi".toList) (.alt (.lit "loiter".toList) (.lit "litter".toList))))

/-- The regex `/violation|offense|rule/`. -/
def reViolations : Pat :=
  .alt (.lit "violation".toList) (.alt (.lit "offense".toList) (.lit "rule".toList))

/-- The lower-cased subject text of the classifier: `(q || '').toLowerCase()`
where `none` models an absent argument. -/
def classifierText (q : Option String) : List Char :=
  jsLowerL (q.getD "").toList

/-- Model of `deriveQuestionCategory`: the ordered first-match-wins regex
chain of the source. -/
def deriveQuestionCategory (q : Option String) : String :=
  if patSearch reDress (classifierText q) then "dressCode"
  else if patSearch reAttendance (classifierText q) then "attendance"
  else if patSearch reAppeals (classifierText q) then "appeals"
  else if patSearch reBullying (classifierText q) then "bullying"
  else if patSearch reSuspension (classifierText q) then "suspension"
  else if patSearch reExpulsion (classifierText q) then "expulsion"
  else if patSearch reCategoryC (classifierText q) then "categoryC"
  else if patSearch reCategoryB (classifierText q) then "majorOffensesB"
  else if patSearch reCategoryA (classifierText q) then "majorOffensesA"
  else if patSearch reMinor (classifierText q) then "minorOffenses"
  else if patSearch reViolations (classifierText q) then "violations"
  else "general"

/-! ### The FAQ table `CHATBOT_FAQ` and resolver `getFAQAnswer` -/

/-- One FAQ rule: a matcher pattern and a canned answer. -/
structure FAQItem where
  q : Pat
  a : String

/-- One category entry of `CHATBOT_FAQ`: ordered FAQ rules plus focus
keywords. -/
structure FAQEntry where
  faqs : List FAQItem
  keywords : List String

/-- The words `violate|violation|break|penalt|penalty|sanction|consequence`
used in the first dress-code FAQ pattern. -/
def faqVioWords : Pat :=
  .alt (.lit "violate".toList) (.alt (.lit "violation".toList)
    (.alt (.lit "break".toList) (.alt (.lit "penalt".toList)
      (.alt (.lit "penalty".toList) (.alt (.lit "sanction".toList)
        (.lit "consequence".toList))))))

/-- The sub-pattern `dress\s*code`. -/
def faqDressCode : Pat := .seq (.lit "dress".toList) (.seq .wsStar (.lit "code".toList))

/-- The sub-pattern `dress\s*code|uniform|groom`. -/
def faqDcug : Pat := .alt faqDressCode (.alt (.lit "uniform".toList) (.lit "groom".toList))

/-- The first dress-code FAQ matcher:
`((what\s+happens\s+if)\s+.*dress\s*code)|((violate|...|consequence).*(dress\s*code|uniform|groom))|((dress\s*code|uniform|groom).*(violate|...|consequence))`. -/
def faqPat1 : Pat :=
  .alt
    (.seq (.lit "what".toList) (.seq .wsPlus (.seq (.lit "happens".toList)
      (.seq .wsPlus (.seq (.lit "if".toList) (.seq .wsPlus (.seq .dotStar faqDressCode)))))))
    (.alt (.seq faqVioWords (.seq .dotStar faqDcug))
      (.seq faqDcug (.seq .dotStar faqVioWords)))

/-- The second dress-code FAQ matcher:
`what\s+is\s+the\s+dress\s*code|uniform|groom`. -/
def faqPat2 : Pat :=
  .alt
    (.seq (.lit "what".toList) (.seq .wsPlus (.seq (.lit "is".toList)
      (.seq .wsPlus (.seq (.lit "the".toList) (.seq .wsPlus faqDressCode))))))
    (.alt (.lit "uniform".toList) (.lit "groom".toList))

/-- The first dress-code canned answer. -/
def dressCodeAnswer1 : String :=
  "Dress Code sanctions (summary):\n- 1st offense: reminder/counseling; may issue Disciplinary Notification Form (DNF).\n- Repeated: Disciplinary Warning Form (DWF) and parent conference.\n- Further/repeated non‑compliance: suspension possible; may be treated as Major Offense.\nFollow grooming rules and uniform policy to avoid escalation."

/-- The second dress-code canned answer. -/
def dressCodeAnswer2 : String :=
  "Students must be presentable and modest.\n- Boys: navy pants, white polo with school patch, black leather shoes, clean 2x3/3x4 haircut.\n- Girls: gray/white checkered skirt, white blouse with patch, ribbon/tie, black shoes.\nPE uniforms only on PE days; ID must be worn at all times."

/-- The dress-code fallback canned answer. -/
def dressCodeAnswer3 : String :=
  "Dress Code highlights:\n- Wear school uniform and ID at all times.\n- Follow grooming rules (clean haircut; no make‑up, long/polished nails, jewelry/piercings, tattoos).\n- PE uniform only on PE days."

/-- The attendance fallback canned answer. -/
def attendanceAnswer : String :=
  "Absences over 20% of class days may lead to failing grade unless excused. Provide excuse letter/medical certificate; prolonged absences require parental notice."

/-- The violations fallback canned answer. -/
def violationsAnswer : String :=
  "Violations are classified as Minor Offenses, Major Offenses (Category A/B), and Category C (Destructive & Harmful). Sanctions escalate with repeats and severity."

/-- Model of the `CHATBOT_FAQ` object: only the three categories
`dressCode`, `attendance` and `violations` are registered; any other key
yields `none` (JavaScript `undefined`). -/
def CHATBOT_FAQ (category : String) : Option FAQEntry :=
  if category = "dressCode" then
    some ⟨[⟨faqPat1, dressCodeAnswer1⟩, ⟨faqPat2, dressCodeAnswer2⟩,
           ⟨Pat.dotStar, dressCodeAnswer3⟩],
          ["dress", "uniform", "groom", "haircut", "attire", "clothing"]⟩
  else if category = "attendance" then
    some ⟨[⟨Pat.dotStar, attendanceAnswer⟩], ["attendance", "absent", "tardy", "late"]⟩
  else if category = "violations" then
    some ⟨[⟨Pat.dotStar, violationsAnswer⟩], ["violation", "offense", "rule"]⟩
  else none

/-- Model of `getFAQAnswer(category, question)`: `null` for an unknown
category, otherwise the answer of the first rule whose case-insensitive
matcher accepts the raw question, with `entry.faqs[0]?.a || null` as the
post-loop fallback. -/
def getFAQAnswer (category question : String) : Option String :=
  match CHATBOT_FAQ category with
  | none => none
  | some entry =>
    match entry.faqs.find? (fun item => patSearch item.q (jsLowerL question.toList)) with
    | some item => some item.a
    | none =>
      match entry.faqs.head? with
      | some item => if item.a = "" then none else some item.a
      | none => none

/-- Model of `getSuggestionsForCategory(cat)`: the static suggestion table
with fallback to the `general` entry. -/
def getSuggestionsForCategory (cat : String) : List String :=
  if cat = "violations" then
    ["What are the violation categories?", "What happens if I break a rule?",
     "How are violations classified?"]
  else if cat = "attendance" then
    ["What is the attendance policy?", "How many absences are allowed?",
     "What are sanctions for tardiness?"]
  else if cat = "dressCode" then
    ["What is the dress code?", "What are the grooming rules?",
     "What happens if I violate dress code?"]
  else if cat = "minorOffenses" then
    ["What are minor offenses?", "Sanctions for minor violations",
     "Examples of minor offenses"]
  else if cat = "majorOffensesA" then
    ["What are Major Offenses Category A?", "Sanctions for Category A offenses",
     "What happens for repeated violations?"]
  else if cat = "majorOffensesB" then
    ["What are Major Offenses Category B?", "What is the penalty for cheating?",
     "Sanctions for Category B offenses"]
  else if cat = "categoryC" then
    ["What are Category C offenses?", "Consequences for drugs or weapons?",
     "Fraternities or hazing consequences"]
  else if cat = "bullying" then
    ["What happens if I bully someone?", "How is bullying handled?",
     "Anti-bullying policy"]
  else if cat = "suspension" then
    ["What is the suspension policy?", "How long can I be suspended?",
     "What happens during suspension?"]
  else if cat = "expulsion" then
    ["What is expulsion?", "When can I be expelled?", "Consequences of expulsion"]
  else if cat = "appeals" then
    ["How do I appeal a decision?", "What is the appeals process?",
     "Can I challenge a violation?"]
  else
    ["What are the violation types?", "What is the dress code?",
     "What are the attendance rules?"]

/-! ### The rate limiter `checkRateLimit`

The timestamp→count map is modelled as an association list; `Date.now()`
is an explicit `now : Int` argument (milliseconds). -/

/-- The constant `RATE_LIMIT_WINDOW` (one minute in milliseconds). -/
def RATE_LIMIT_WINDOW : Int := 60000

/-- The constant `MAX_REQUESTS_PER_WINDOW`. -/
def MAX_REQUESTS_PER_WINDOW : Nat := 10

/-- The cleanup loop of `checkRateLimit`: drop entries whose timestamp is
before the window start. -/
def cleanOld (m : List (Int × Nat)) (now : Int) : List (Int × Nat) :=
  m.filter (fun e => decide (¬ e.1 < now - RATE_LIMIT_WINDOW))

/-- The request count of the current window: sum of the counts that
survive cleanup. -/
def currentRequests (m : List (Int × Nat)) (now : Int) : Nat :=
  ((cleanOld m now).map (fun e => e.2)).sum

/-- The recording step of `checkRateLimit`: bump the counter of the
current minute bucket (`Math.floor(now / 60000) * 60000`). -/
def recordRequest (m : List (Int × Nat)) (now : Int) : List (Int × Nat) :=
  let minute := now.fdiv 60000 * 60000
  if m.any (fun e => decide (e.1 = minute)) then
    m.map (fun e => if e.1 = minute then (e.1, e.2 + 1) else e)
  else m ++ [(minute, 1)]

/-- Model of `checkRateLimit()`: throws (returns `.error`) when the current
window already holds `MAX_REQUESTS_PER_WINDOW` requests, otherwise records
the request and succeeds. -/
def checkRateLimit (m : List (Int × Nat)) (now : Int) :
    Except String (List (Int × Nat)) :=
  let cleaned := cleanOld m now
  if MAX_REQUESTS_PER_WINDOW ≤ (cleaned.map (fun e => e.2)).sum then
    .error "Rate limit exceeded. Please wait before making another request."
  else .ok (recordRequest cleaned now)

/-! ### The HTTP endpoints -/

/-- The fixed sentinel text returned when nothing relevant is found. -/
def NO_MATCH_MSG : String :=
  "No directly relevant section found in the handbook for that question."

/-- Response of `POST /api/ask-handbook`. -/
structure HResp where
  status : Nat
  answer : Option String
  error : Option String

/-- Model of the `POST /api/ask-handbook` handler.  `question` is the body
field (`none` when absent); `doc` is the outcome of reading and parsing the
handbook PDF (`.error` models a thrown I/O or parse failure, caught by the
handler's outer `try`/`catch` which responds 500 with the error message).
Note that `checkRateLimit()` runs before the question is validated. -/
def askHandbook (m : List (Int × Nat)) (now : Int) (question : Option String)
    (doc : Except String String) : HResp :=
  match checkRateLimit m now with
  | .error msg => ⟨500, none, some msg⟩
  | .ok _ =>
    match question with
    | none => ⟨400, none, some "Question is required."⟩
    | some q =>
      if q = "" ∨ jsTrim q = "" then ⟨400, none, some "Question is required."⟩
      else
        match doc with
        | .error e => ⟨500, none, some e⟩
        | .ok pdfText =>
          let passages := extractTopHandbookPassages q pdfText 3 40
          if passages.isEmpty then ⟨200, some NO_MATCH_MSG, none⟩
          else ⟨200, some (String.intercalate "\n\n" passages), none⟩

/-- Response of `POST /api/chatbot/ask`. -/
structure CResp where
  status : Nat
  text : String
  suggestions : List String
  category : String
  source : String
  error : Option String

/-- JavaScript `a || b` on a nullable string: `b` when `a` is `null` or
empty (falsy), otherwise `a`. -/
def jsOrStr (a : Option String) (b : String) : String :=
  match a with
  | some s => if s = "" then b else s
  | none => b

/-- JavaScript truthiness of a nullable string. -/
def strTruthy (a : Option String) : Bool :=
  match a with
  | some s => decide (s ≠ "")
  | none => false

/-- Model of the `POST /api/chatbot/ask` handler.  The handbook loading
step sits in an inner `try {} catch {}` whose catch block is empty, so a
document failure (`doc = .error _`) merely leaves `handbookText` empty and
the handler still responds 200. -/
def chatbotAsk (question : Option String) (doc : Except String String) : CResp :=
  match question with
  | none => ⟨400, "", [], "", "", some "Question is required"⟩
  | some q =>
    if q = "" then ⟨400, "", [], "", "", some "Question is required"⟩
    else
      let cat := deriveQuestionCategory (some q)
      let faqAnswer := getFAQAnswer cat q
      let handbookText :=
        match doc with
        | .error _ => ""
        | .ok pdfText =>
          let focusKeywords :=
            match CHATBOT_FAQ cat with
            | some entry => entry.keywords
            | none => []
          String.intercalate "\n\n"
            (extractTopHandbookPassagesFocused q pdfText focusKeywords 2)
      let finalText := jsOrStr faqAnswer (if handbookText = "" then NO_MATCH_MSG else handbookText)
      ⟨200, finalText, getSuggestionsForCategory cat, cat,
        if strTruthy faqAnswer then "FAQ" else "Student Handbook", none⟩

/-! ### Helper lemmas -/

theorem patSearch_dotStar (l : List Char) : patSearch Pat.dotStar l = true := by
  cases l with
  | nil => rfl
  | cons c rest => simp [patSearch, patRems, dotRems]

theorem mem_insertDesc {x a : ScoredP} {l : List ScoredP} :
    x ∈ insertDesc a l ↔ x = a ∨ x ∈ l := by
  induction l with
  | nil => simp [insertDesc]
  | cons y ys ih =>
    simp only [insertDesc]
    split
    · simp
    · simp [ih]
      tauto

theorem mem_sortDesc {x : ScoredP} {l : List ScoredP} :
    x ∈ sortDesc l ↔ x ∈ l := by
  induction l with
  | nil => simp [sortDesc]
  | cons y ys ih => simp [sortDesc, mem_insertDesc, ih]

/-- The order produced by the stable descending sort: strictly larger score
first, and among equal scores the smaller (earlier) document index first. -/
def scoredRel (a b : ScoredP) : Prop :=
  b.score < a.score ∨ (a.score = b.score ∧ a.idx < b.idx)

theorem scoredRel_score_le {a b : ScoredP} (h : scoredRel a b) : b.score ≤ a.score := by
  rcases h with h | ⟨h, _⟩
  · exact Nat.le_of_lt h
  · exact Nat.le_of_eq h.symm

theorem pairwise_insertDesc {x : ScoredP} {l : List ScoredP}
    (hl : List.Pairwise scoredRel l) (hx : ∀ y ∈ l, x.idx < y.idx) :
    List.Pairwise scoredRel (insertDesc x l) := by
  induction l with
  | nil => simp [insertDesc]
  | cons y ys ih =>
    rw [List.pairwise_cons] at hl
    obtain ⟨hy, hys⟩ := hl
    simp only [insertDesc]
    split
    · rename_i hscore
      rw [List.pairwise_cons]
      constructor
      · intro z hz
        rw [List.mem_cons] at hz
        have hzle : z.score ≤ y.score := by
          rcases hz with rfl | hz
          · exact Nat.le_refl _
          · exact scoredRel_score_le (hy z hz)
        have hzmem : z ∈ y :: ys := by
          rcases hz with rfl | hz
          · exact List.mem_cons_self _ _
          · exact List.mem_cons_of_mem _ hz
        have hzx : z.score ≤ x.score := Nat.le_trans hzle hscore
        rcases Nat.lt_or_ge z.score x.score with hlt | hge
        · exact Or.inl hlt
        · exact Or.inr ⟨Nat.le_antisymm hge hzx, hx z hzmem⟩
      · rw [List.pairwise_cons]
        exact ⟨hy, hys⟩
    · rename_i hscore
      rw [List.pairwise_cons]
      constructor
      · intro z hz
        rcases mem_insertDesc.mp hz with rfl | hz
        · exact Or.inl (Nat.lt_of_not_le hscore)
        · exact hy z hz
      · exact ih hys (fun z hz => hx z (List.mem_cons_of_mem y hz))

theorem pairwise_sortDesc {l : List ScoredP}
    (h : List.Pairwise (fun a b => a.idx < b.idx) l) :
    List.Pairwise scoredRel (sortDesc l) := by
  induction l with
  | nil => simp [sortDesc]
  | cons x xs ih =>
    rw [List.pairwise_cons] at h
    exact pairwise_insertDesc (ih h.2)
      (fun y hy => h.1 y (mem_sortDesc.mp hy))

theorem mem_scoreParasWith {f : String → Nat} {i : Nat} {ps : List String}
    {s : ScoredP} (h : s ∈ scoreParasWith f i ps) :
    s.score = f s.text ∧ s.text ∈ ps ∧ i ≤ s.idx := by
  induction ps generalizing i with
  | nil => simp [scoreParasWith] at h
  | cons p rest ih =>
    simp only [scoreParasWith, List.mem_cons] at h
    rcases h with rfl | h
    · exact ⟨rfl, List.mem_cons_self _ _, Nat.le_refl _⟩
    · obtain ⟨h1, h2, h3⟩ := ih h
      exact ⟨h1, List.mem_cons_of_mem _ h2, Nat.le_of_succ_le h3⟩

theorem pairwise_idx_scoreParasWith (f : String → Nat) (i : Nat) (ps : List String) :
    List.Pairwise (fun a b => a.idx < b.idx) (scoreParasWith f i ps) := by
  induction ps generalizing i with
  | nil => simp [scoreParasWith]
  | cons p rest ih =>
    simp only [scoreParasWith]
    rw [List.pairwise_cons]
    refine ⟨fun y hy => ?_, ih (i + 1)⟩
    have h1 : i + 1 ≤ y.idx := (mem_scoreParasWith hy).2.2
    show i < y.idx
    omega

theorem mem_take_of_mem {α : Type} {x : α} {n : Nat} {l : List α}
    (h : x ∈ l.take n) : x ∈ l :=
  (List.take_sublist n l).subset h

theorem mem_ite {c : Prop} [Decidable c] {α : Type} {a b : α} {L : List α}
    (ha : a ∈ L) (hb : b ∈ L) : (if c then a else b) ∈ L := by
  split
  · exact ha
  · exact hb

theorem mem_extractScoredTop {question fullText : String} {mP mL : Nat}
    {s : ScoredP} (h : s ∈ extractScoredTop question fullText mP mL) :
    s.score = scoreOf question s.text ∧ 0 < s.score ∧
    s.text ∈ ((splitParagraphs fullText).map jsTrim).filter
      (fun p => decide (mL ≤ p.length)) := by
  unfold extractScoredTop at h
  rw [List.mem_filter] at h
  obtain ⟨hmem, hpos⟩ := h
  have hmem2 := mem_sortDesc.mp (mem_take_of_mem hmem)
  obtain ⟨hscore, htext, _⟩ := mem_scoreParasWith hmem2
  refine ⟨hscore, ?_, htext⟩
  simpa using hpos

theorem pairwise_extractScoredTop (question fullText : String) (mP mL : Nat) :
    List.Pairwise scoredRel (extractScoredTop question fullText mP mL) := by
  unfold extractScoredTop
  have h1 : List.Pairwise scoredRel
      (sortDesc (scoreParasWith (scoreOf question) 0
        (((splitParagraphs fullText).map jsTrim).filter
          (fun p => decide (mL ≤ p.length))))) :=
    pairwise_sortDesc (pairwise_idx_scoreParasWith _ _ _)
  exact List.Pairwise.sublist ((List.filter_sublist _).trans (List.take_sublist _ _)) h1

/-! ### Claim theorems -/

/-- C2: for every question, document and `maxPassages` bound, the plain
ranker `extractTopHandbookPassages` returns at most `maxPassages` passages,
every returned passage has strictly positive score, the returned passages
are ordered by score descending, and the underlying scored candidate list
is ordered by score descending with ties in document order (hence the
output is deterministic for a fixed input). -/
theorem plain_ranker_bound_positive_sorted (question fullText : String)
    (maxPassages minLen : Nat) :
    (extractTopHandbookPassages question fullText maxPassages minLen).length ≤ maxPassages
    ∧ (∀ p ∈ extractTopHandbookPassages question fullText maxPassages minLen,
        0 < scoreOf question p)
    ∧ List.Pairwise (fun p1 p2 => scoreOf question p2 ≤ scoreOf question p1)
        (extractTopHandbookPassages question fullText maxPassages minLen)
    ∧ List.Pairwise scoredRel (extractScoredTop question fullText maxPassages minLen) := by
  refine ⟨?_, ?_, ?_, pairwise_extractScoredTop question fullText maxPassages minLen⟩
  · unfold extractTopHandbookPassages
    split
    · simp
    · rw [List.length_map]
      unfold extractScoredTop
      refine Nat.le_trans (List.length_filter_le _ _) ?_
      rw [List.length_take]
      exact min_le_left _ _
  · intro p hp
    unfold extractTopHandbookPassages at hp
    split at hp
    · simp at hp
    · rw [List.mem_map] at hp
      obtain ⟨s, hs, rfl⟩ := hp
      obtain ⟨hscore, hpos, _⟩ := mem_extractScoredTop hs
      rwa [hscore] at hpos
  · unfold extractTopHandbookPassages
    split
    · simp
    · rw [List.pairwise_map]
      refine List.Pairwise.imp_of_mem ?_
        (pairwise_extractScoredTop question fullText maxPassages minLen)
      intro a b ha hb hr
      have h1 := (mem_extractScoredTop ha).1
      have h2 := (mem_extractScoredTop hb).1
      have h3 := scoredRel_score_le hr
      rwa [h1, h2] at h3

/-- C6: the classifier maps "what happens if I violate the dress code
category b" to `dressCode`, because the dress-code rule is tested before
the category-B rule in the ordered first-match-wins chain. -/
theorem classifier_precedence_dress_before_categoryB :
    deriveQuestionCategory
      (some "what happens if I violate the dress code category b") = "dressCode" := by
  rfl

/-- C5: the classifier `deriveQuestionCategory` is a total, pure,
deterministic function: for every input (including the absent input,
modelled as `none`) it returns exactly one of the 12 enumerated
categories, two calls on the same input agree, the absent input yields
`general`, and whenever none of the 11 keyword rules matches the result
is `general`. -/
theorem classifier_total_deterministic (q : Option String) :
    deriveQuestionCategory q ∈
      (["dressCode", "attendance", "appeals", "bullying", "suspension",
        "expulsion", "categoryC", "majorOffensesB", "majorOffensesA",
        "minorOffenses", "violations", "general"] : List String)
    ∧ deriveQuestionCategory q = deriveQuestionCategory q
    ∧ deriveQuestionCategory none = "general"
    ∧ (patSearch reDress (classifierText q) = false →
       patSearch reAttendance (classifierText q) = false →
       patSearch reAppeals (classifierText q) = false →
       patSearch reBullying (classifierText q) = false →
       patSearch reSuspension (classifierText q) = false →
       patSearch reExpulsion (classifierText q) = false →
       patSearch reCategoryC (classifierText q) = false →
       patSearch reCategoryB (classifierText q) = false →
       patSearch reCategoryA (classifierText q) = false →
       patSearch reMinor (classifierText q) = false →
       patSearch reViolations (classifierText q) = false →
       deriveQuestionCategory q = "general") := by
  refine ⟨?_, rfl, rfl, ?_⟩
  · unfold deriveQuestionCategory
    refine mem_ite (by decide) (mem_ite (by decide) (mem_ite (by decide)
      (mem_ite (by decide) (mem_ite (by decide) (mem_ite (by decide)
        (mem_ite (by decide) (mem_ite (by decide) (mem_ite (by decide)
          (mem_ite (by decide) (mem_ite (by decide) (by decide)))))))))))
  · intro h1 h2 h3 h4 h5 h6 h7 h8 h9 h10 h11
    unfold deriveQuestionCategory
    rw [h1, h2, h3, h4, h5, h6, h7, h8, h9, h10, h11]
    simp

/-- Witness for C5: instantiating the classifier theorem at the concrete
question "hello", on which no keyword rule matches, yields `general`. -/
theorem classifier_total_deterministic_witness :
    deriveQuestionCategory (some "hello") = "general" :=
  (classifier_total_deterministic (some "hello")).2.2.2
    rfl rfl rfl rfl rfl rfl rfl rfl rfl rfl rfl

/-- C1 (amended): FAQ resolution is deterministic, and for each of the
three categories actually registered in `CHATBOT_FAQ` (`dressCode`,
`attendance`, `violations`) it returns a non-empty answer for every
question, because each registered rule list ends in the universal `/.*/`
fallback rule; the other nine classifier categories are not registered
and yield `none`. -/
theorem faq_fallback_registered (c q : String)
    (h : c = "dressCode" ∨ c = "attendance" ∨ c = "violations") :
    ∃ a, getFAQAnswer c q = some a ∧ a ≠ "" := by
  rcases h with rfl | rfl | rfl
  · cases hp1 : patSearch faqPat1 (jsLowerL q.data) with
    | true =>
      exact ⟨dressCodeAnswer1,
        by simp [getFAQAnswer, CHATBOT_FAQ, List.find?, hp1], by decide⟩
    | false =>
      cases hp2 : patSearch faqPat2 (jsLowerL q.data) with
      | true =>
        exact ⟨dressCodeAnswer2,
          by simp [getFAQAnswer, CHATBOT_FAQ, List.find?, hp1, hp2], by decide⟩
      | false =>
        exact ⟨dressCodeAnswer3,
          by simp [getFAQAnswer, CHATBOT_FAQ, List.find?, hp1, hp2,
            patSearch_dotStar], by decide⟩
  · exact ⟨attendanceAnswer,
      by simp [getFAQAnswer, CHATBOT_FAQ, List.find?, patSearch_dotStar], by decide⟩
  · exact ⟨violationsAnswer,
      by simp [getFAQAnswer, CHATBOT_FAQ, List.find?, patSearch_dotStar], by decide⟩

/-- Witness for C1 (amended): the registered category `dressCode` with the
empty question yields a non-empty answer. -/
theorem faq_fallback_registered_witness :
    ∃ a, getFAQAnswer "dressCode" "" = some a ∧ a ≠ "" :=
  faq_fallback_registered "dressCode" "" (Or.inl rfl)

/-- Counterexample for C1 as stated: `bullying` is one of the 12 categories
the classifier can return (second conjunct), yet `getFAQAnswer` returns
`null` for it, not a non-empty string, because `CHATBOT_FAQ` registers only
three categories. -/
theorem faq_fallback_counterexample :
    getFAQAnswer "bullying" "" = none
    ∧ deriveQuestionCategory (some "bullying at school") = "bullying" :=
  ⟨rfl, rfl⟩

theorem focusedScoreOf_empty_inputs (p : String) : focusedScoreOf "" [] p = 0 := rfl

theorem focusedScoredTop_empty_question (doc : String) (mm : Nat) :
    focusedScoredTop "" doc [] mm = [] := by
  unfold focusedScoredTop
  rw [List.filter_eq_nil_iff]
  intro s hs
  have h := (mem_scoreParasWith (mem_sortDesc.mp (mem_take_of_mem hs))).1
  simp only [List.map_nil] at h
  rw [focusedScoreOf_empty_inputs] at h
  simp [h]

/-- C3 (amended): the plain ranker returns the empty sequence whenever the
question or the document is empty; the focused ranker returns the empty
sequence whenever the document is empty, and on an empty question it
returns the empty sequence when no focus keywords are supplied — but (see
the counterexample) not in general, because focus-keyword hits alone can
give a passage a positive score. -/
theorem empty_input_behavior (q doc : String) (ks : List String) (m ml mf : Nat) :
    extractTopHandbookPassages "" doc m ml = []
    ∧ extractTopHandbookPassages q "" m ml = []
    ∧ extractTopHandbookPassagesFocused q "" ks mf = []
    ∧ extractTopHandbookPassagesFocused "" doc [] mf = [] := by
  refine ⟨?_, ?_, ?_, ?_⟩
  · simp [extractTopHandbookPassages]
  · simp [extractTopHandbookPassages]
  · simp [extractTopHandbookPassagesFocused]
  · simp [extractTopHandbookPassagesFocused, focusedScoredTop_empty_question]

/-- Counterexample for C3 as stated: with an empty question but a focus
keyword that occurs in the document, the focused ranker returns a passage
(scored by the `+1`-per-focus-keyword term), not the empty sequence. -/
theorem focused_empty_question_counterexample :
    extractTopHandbookPassagesFocused ""
        "The dress code applies to all students at all times." ["dress"] 2
      = ["The dress code applies to all students at all times."]
    ∧ extractTopHandbookPassagesFocused ""
        "The dress code applies to all students at all times." ["dress"] 2 ≠ [] := by
  have h : extractTopHandbookPassagesFocused ""
      "The dress code applies to all students at all times." ["dress"] 2
      = ["The dress code applies to all students at all times."] := rfl
  exact ⟨h, by rw [h]; simp⟩

theorem mem_focusedScoredTop {question fullText : String} {ks : List String}
    {mm : Nat} {s : ScoredP} (h : s ∈ focusedScoredTop question fullText ks mm) :
    s.text ∈ focusedPool fullText (ks.map (fun k => (⟨jsLowerL k.toList⟩ : String))) := by
  unfold focusedScoredTop at h
  rw [List.mem_filter] at h
  exact (mem_scoreParasWith (mem_sortDesc.mp (mem_take_of_mem h.1))).2.1

theorem focusedPool_subset_paras {fullText : String} {lf : List String} {p : String}
    (h : p ∈ focusedPool fullText lf) : p ∈ focusedParas fullText := by
  unfold focusedPool at h
  split at h
  · exact h
  · split at h
    · exact h
    · exact (List.mem_filter.mp h).1

/-- C4 (amended): the plain ranker derives its candidates by splitting on
blank-line boundaries, trimming, and discarding paragraphs shorter than
`minPassageLength`, so under the default configuration (40) every passage
it returns has trimmed length at least 40; the focused ranker, however,
only discards empty trimmed paragraphs (`filter(Boolean)`), so its
passages are merely non-empty and may be shorter than 40 characters. -/
theorem passage_length_policy :
    (∀ q doc mP p, p ∈ extractTopHandbookPassages q doc mP 40 → 40 ≤ p.length)
    ∧ (∀ q doc ks mm p, p ∈ extractTopHandbookPassagesFocused q doc ks mm → p ≠ "") := by
  constructor
  · intro q doc mP p hp
    unfold extractTopHandbookPassages at hp
    split at hp
    · simp at hp
    · rw [List.mem_map] at hp
      obtain ⟨s, hs, rfl⟩ := hp
      have h3 := (mem_extractScoredTop hs).2.2
      rw [List.mem_filter] at h3
      simpa using h3.2
  · intro q doc ks mm p hp
    unfold extractTopHandbookPassagesFocused at hp
    split at hp
    · simp at hp
    · rw [List.mem_map] at hp
      obtain ⟨s, hs, rfl⟩ := hp
      have h2 := focusedPool_subset_paras (mem_focusedScoredTop hs)
      unfold focusedParas at h2
      rw [List.mem_filter] at h2
      simpa using h2.2

/-- Witness for C4 (amended): a concrete long paragraph returned by the
plain ranker has length at least 40, and a concrete passage returned by
the focused ranker is non-empty. -/
theorem passage_length_policy_witness :
    40 ≤ ("Students must wear the prescribed school uniform at all times." : String).length
    ∧ ("The dress code." : String) ≠ "" := by
  constructor
  · refine passage_length_policy.1 "uniform"
      "Students must wear the prescribed school uniform at all times." 3 _ ?_
    rw [show extractTopHandbookPassages "uniform"
      "Students must wear the prescribed school uniform at all times." 3 40
      = ["Students must wear the prescribed school uniform at all times."] from rfl]
    exact List.mem_singleton.mpr rfl
  · refine passage_length_policy.2 "dress" "The dress code." [] 3 _ ?_
    rw [show extractTopHandbookPassagesFocused "dress" "The dress code." [] 3
      = ["The dress code."] from rfl]
    exact List.mem_singleton.mpr rfl

/-- Counterexample for C4 as stated: the focused ranker returns the
15-character passage "The dress code.", far below the 40-character minimum
the claim asserts for both ranking modes. -/
theorem focused_short_passage_counterexample :
    extractTopHandbookPassagesFocused "dress" "The dress code." [] 3
      = ["The dress code."]
    ∧ ("The dress code." : String).length < 40 :=
  ⟨rfl, by decide⟩

theorem scoreOf_eq (q p : String) :
    scoreOf q p = unigramScoreOf (questionTokens q) (passageTokens p)
      + bigramScoreOf (bigramsOf (questionTokens q)) (passageTokens p)
      + distinctOverlapOf (questionTokens q) (passageTokens p) := rfl

/-- C7: bigram weighting of the plain ranker.  If the question contains the
two-word phrase `w1 w2` (as a bigram of its filtered token sequence), then
a passage whose tokens are exactly `[w1, w2]` scores strictly higher than
an otherwise-identical passage with the two words reversed (`[w2, w1]`,
assuming the reversed phrase is not itself a question bigram), and strictly
higher than one with the two words separated by an unrelated word
(`[w1, x, w2]`): the exact phrase earns the `+2` bigram bonus on top of the
same unigram and distinct-overlap scores. -/
theorem bigram_weighting (q p1 p2 p3 w1 w2 x : String)
    (h1 : passageTokens p1 = [w1, w2])
    (h2 : passageTokens p2 = [w2, w1])
    (h3 : passageTokens p3 = [w1, x, w2])
    (hb : (w1 ++ " " ++ w2) ∈ bigramsOf (questionTokens q))
    (hrev : (w2 ++ " " ++ w1) ∉ bigramsOf (questionTokens q))
    (hx : x ∉ questionTokens q)
    (hb1 : (w1 ++ " " ++ x) ∉ bigramsOf (questionTokens q))
    (hb2 : (x ++ " " ++ w2) ∉ bigramsOf (questionTokens q)) :
    scoreOf q p2 < scoreOf q p1 ∧ scoreOf q p3 < scoreOf q p1 := by
  have hne : w1 ≠ w2 := by
    intro he
    exact hrev (he ▸ hb)
  rw [scoreOf_eq, scoreOf_eq, scoreOf_eq, h1, h2, h3]
  by_cases m1 : w1 ∈ questionTokens q <;> by_cases m2 : w2 ∈ questionTokens q <;>
    simp [unigramScoreOf, bigramScoreOf, distinctOverlapOf, List.countP_cons,
      List.zip_cons_cons, hb, hrev, hb1, hb2, hx, m1, m2, hne, hne.symm,
      List.dedup_cons_of_not_mem, List.dedup_cons_of_mem]

/-- Witness for C7: for the question "what is the dress code", the passage
"dress code" (exact phrase) outscores both "code dress" (reversed) and
"dress policy code" (non-adjacent). -/
theorem bigram_weighting_witness :
    scoreOf "what is the dress code" "code dress"
        < scoreOf "what is the dress code" "dress code"
    ∧ scoreOf "what is the dress code" "dress policy code"
        < scoreOf "what is the dress code" "dress code" :=
  bigram_weighting "what is the dress code" "dress code" "code dress"
    "dress policy code" "dress" "code" "policy"
    (by decide) (by decide) (by decide) (by decide) (by decide) (by decide)
    (by decide) (by decide)

/-- C8: end-to-end behavior for "What is the dress code?", for any outcome
of the handbook-document load: the classifier returns `dressCode`; the
first (sanctions) FAQ pattern does not match while the second one does, so
the resolver returns the second canned answer; the `/api/chatbot/ask`
response has status 200, source "FAQ", and its text begins with "Students
must be presentable and modest.". -/
theorem dress_code_end_to_end (doc : Except String String) :
    deriveQuestionCategory (some "What is the dress code?") = "dressCode"
    ∧ patSearch faqPat1 (jsLowerL "What is the dress code?".toList) = false
    ∧ patSearch faqPat2 (jsLowerL "What is the dress code?".toList) = true
    ∧ getFAQAnswer "dressCode" "What is the dress code?" = some dressCodeAnswer2
    ∧ (chatbotAsk (some "What is the dress code?") doc).status = 200
    ∧ (chatbotAsk (some "What is the dress code?") doc).source = "FAQ"
    ∧ ("Students must be presentable and modest.".toList.isPrefixOf
        (chatbotAsk (some "What is the dress code?") doc).text.toList) = true :=
  ⟨rfl, rfl, rfl, rfl, rfl, rfl, rfl⟩

/-- C9 (amended): when the reference document cannot be loaded or parsed,
`POST /api/ask-handbook` (with the rate limit not exceeded and a valid
question) propagates the failure and responds 500 with the error message,
as the claim states; but `POST /api/chatbot/ask` swallows the failure in
an inner empty `catch` block and responds 200, not 500. -/
theorem document_failure_handling (m : List (Int × Nat)) (now : Int) (q e d : String)
    (hrl : currentRequests m now < MAX_REQUESTS_PER_WINDOW)
    (hq : jsTrim q ≠ "") :
    (askHandbook m now (some q) (Except.error e)).status = 500
    ∧ (askHandbook m now (some q) (Except.error e)).error = some e
    ∧ (chatbotAsk (some q) (Except.error d)).status = 200 := by
  have hok : ¬ MAX_REQUESTS_PER_WINDOW ≤ ((cleanOld m now).map (fun e => e.2)).sum := by
    unfold currentRequests at hrl
    omega
  have hq0 : ¬ (q = "" ∨ jsTrim q = "") := by
    rintro (rfl | h)
    · exact hq rfl
    · exact hq h
  have hqne : ¬ (q = "") := by
    rintro rfl
    exact hq rfl
  refine ⟨?_, ?_, ?_⟩
  · simp [askHandbook, checkRateLimit, hok, hq0]
  · simp [askHandbook, checkRateLimit, hok, hq0]
  · simp [chatbotAsk, hqne]

/-- Witness for C9 (amended): with an empty rate-limiter state and the
question "hello", a document failure yields 500 from `/api/ask-handbook`
and 200 from `/api/chatbot/ask`. -/
theorem document_failure_handling_witness :
    (askHandbook [] 0 (some "hello") (Except.error "boom")).status = 500
    ∧ (askHandbook [] 0 (some "hello") (Except.error "boom")).error = some "boom"
    ∧ (chatbotAsk (some "hello") (Except.error "io")).status = 200 :=
  document_failure_handling [] 0 "hello" "boom" "io" (by decide) (by decide)

/-- Counterexample for C9 as stated: when the handbook document is
unreadable, `POST /api/chatbot/ask` responds 200 (with the not-found
sentinel text), not 500 — the inner `catch {}` swallows the failure. -/
theorem chatbot_document_failure_counterexample :
    (chatbotAsk (some "hello") (Except.error "ENOENT")).status = 200
    ∧ (chatbotAsk (some "hello") (Except.error "ENOENT")).status ≠ 500
    ∧ (chatbotAsk (some "hello") (Except.error "ENOENT")).text = NO_MATCH_MSG :=
  ⟨rfl, by decide, rfl⟩

/-- C10: in `POST /api/ask-handbook`, `checkRateLimit()` runs before the
question is validated, so in any rate-limiter state at or above the
10-requests-per-minute threshold a request with a missing or blank
question receives HTTP 500 with the rate-limit message, not the HTTP 400
"Question is required." response. -/
theorem rate_limit_precedes_validation (m : List (Int × Nat)) (now : Int)
    (question : Option String) (doc : Except String String)
    (hr : MAX_REQUESTS_PER_WINDOW ≤ currentRequests m now)
    (hq : question = none ∨ question = some ""
      ∨ ∃ s, question = some s ∧ jsTrim s = "") :
    (askHandbook m now question doc).status = 500
    ∧ (askHandbook m now question doc).status ≠ 400
    ∧ (askHandbook m now question doc).error
        = some "Rate limit exceeded. Please wait before making another request." := by
  have hr2 : MAX_REQUESTS_PER_WINDOW ≤ ((cleanOld m now).map (fun e => e.2)).sum := by
    unfold currentRequests at hr
    omega
  refine ⟨?_, ?_, ?_⟩ <;> simp [askHandbook, checkRateLimit, hr2]

/-- Witness for C10: a rate-limiter state holding 10 requests in the
current window and an absent question yield the 500 rate-limit response. -/
theorem rate_limit_precedes_validation_witness :
    (askHandbook [((0 : Int), 10)] 0 none (Except.ok "")).status = 500
    ∧ (askHandbook [((0 : Int), 10)] 0 none (Except.ok "")).status ≠ 400
    ∧ (askHandbook [((0 : Int), 10)] 0 none (Except.ok "")).error
        = some "Rate limit exceeded. Please wait before making another request." :=
  rate_limit_precedes_validation [((0 : Int), 10)] 0 none (Except.ok "")
    (by decide) (Or.inl rfl)

end IDiscipline
